import Mathlib

/-!
Verification of the client-side session/state synchronization logic of the
MedBot chat frontend (React + zustand + axios), shallowly embedded in Lean.

The embedding models:
* the zustand auth store (`project/src/store/auth.ts`): `login`, `logout`,
  `loadFromStorage`, the `persist` middleware with its `partialize` record,
  and rehydration on reload;
* the axios gateway (`project/src/api/client.ts`): the response interceptor
  that handles status 401, and the `post` / `postForm` request builders;
* the auth and chat endpoint wrappers (`project/src/api/auth.ts`,
  `project/src/api/chat.ts`);
* the conversation view (`ChatWindow.tsx`): `handleSend` with its optimistic
  append, rollback on failure, and the `isSending` guard;
* the chat page (`Chat.tsx`): `loadHistory`, `handleNewChat`,
  `handleCloseChat` and the descending timestamp sort of the history list.

JavaScript string truthiness (`null`, `undefined` and `""` are falsy) is
modelled explicitly where the source relies on it. Timestamps are modelled
as the integer returned by `new Date(ts).getTime()`.
-/

namespace MedBot

/-- `role` of a chat message: `'user' | 'bot'` (`project/src/types`). -/
inductive Role
  | user
  | bot
deriving DecidableEq, Repr

/-- `ChatMessage = { role, text }` (`project/src/types`). -/
structure ChatMessage where
  role : Role
  text : String
deriving DecidableEq, Repr

/-- `ChatHistoryItem = { chat_id, messages, timestamp }`; the timestamp is
modelled as the integer millisecond value `new Date(timestamp).getTime()`
that the sort comparator in `Chat.tsx` actually compares. -/
structure ChatHistoryItem where
  chat_id : String
  messages : List ChatMessage
  timestamp : Int
deriving DecidableEq, Repr

/-- `AuthCredentials = { username, password }` (`project/src/types`). -/
structure AuthCredentials where
  username : String
  password : String
deriving DecidableEq, Repr

/-- `TokenResponse = { access_token, token_type }` (`project/src/types`). -/
structure TokenResponse where
  access_token : String
  token_type : String
deriving DecidableEq, Repr

/-- JavaScript truthiness of a nullable string: `null`/`undefined` and the
empty string are falsy, every other string is truthy. -/
def strTruthy : Option String → Bool
  | none => false
  | some s => !(s == "")

/-- JavaScript `String.prototype.trim`: strip leading and trailing
whitespace, modelled over the string's character list. -/
def jsTrim (s : String) : String :=
  String.mk
    (((s.data.dropWhile Char.isWhitespace).reverse.dropWhile
      Char.isWhitespace).reverse)

/-! ## Session store (`project/src/store/auth.ts`) -/

/-- The zustand auth store state: `{ token, username, isAuthenticated }`. -/
structure AuthState where
  token : Option String
  username : Option String
  isAuthenticated : Bool
deriving DecidableEq, Repr

namespace AuthState

/-- The initial store state: `token: null, username: null,
isAuthenticated: false` (`auth.ts` lines 19-21). -/
def initial : AuthState :=
  { token := none, username := none, isAuthenticated := false }

/-- `login: (token, username) => set({ token, username, isAuthenticated: true })`
(`auth.ts` lines 23-29). -/
def login (t u : String) (_s : AuthState) : AuthState :=
  { token := some t, username := some u, isAuthenticated := true }

/-- `logout: () => set({ token: null, username: null, isAuthenticated: false })`
(`auth.ts` lines 31-37). -/
def logout (_s : AuthState) : AuthState :=
  { token := none, username := none, isAuthenticated := false }

/-- `loadFromStorage: () => { const state = get(); if (state.token)
set({ isAuthenticated: true }); }` (`auth.ts` lines 39-44). The `if` uses
JavaScript truthiness of the nullable string `state.token`. -/
def loadFromStorage (s : AuthState) : AuthState :=
  if strTruthy s.token then { s with isAuthenticated := true } else s

end AuthState

/-- The record the `persist` middleware writes to durable storage:
`partialize: (state) => ({ token: state.token, username: state.username })`
(`auth.ts` lines 48-51). `isAuthenticated` is deliberately excluded. -/
structure PersistedAuth where
  ptoken : Option String
  pusername : Option String
deriving DecidableEq, Repr

/-- The `partialize` projection of `auth.ts` lines 48-51. -/
def persistRecord (s : AuthState) : PersistedAuth :=
  { ptoken := s.token, pusername := s.username }

/-- Rehydration on reload: zustand `persist` shallow-merges the persisted
record over the freshly created initial state, so `token` and `username`
come from storage while `isAuthenticated` keeps its initial value `false`
(it is not in the persisted record). -/
def rehydrate (p : PersistedAuth) : AuthState :=
  { token := p.ptoken, username := p.pusername, isAuthenticated := false }

/-- States of the auth store reachable through its lifecycle: the initial
state, and any state obtained by `login`, `logout`, `loadFromStorage`, or a
reload that rehydrates the persisted `{token, username}` record. -/
inductive AuthReachable : AuthState → Prop
  | init : AuthReachable AuthState.initial
  | login (t u : String) {s : AuthState} :
      AuthReachable s → AuthReachable (AuthState.login t u s)
  | logout {s : AuthState} :
      AuthReachable s → AuthReachable (AuthState.logout s)
  | load {s : AuthState} :
      AuthReachable s → AuthReachable (AuthState.loadFromStorage s)
  | reload {s : AuthState} :
      AuthReachable s → AuthReachable (rehydrate (persistRecord s))

/-! ## HTTP gateway (`project/src/api/client.ts`) -/

/-- The axios response interceptor (`client.ts` lines 35-47): on a response
with status 401 it calls `useAuthStore.getState().logout()` and sets
`window.location.href = '/login'`; any other status passes through. It is
installed once on the single shared axios instance, so it applies to every
backend call regardless of which operation issued it. Returns the resulting
store state and the forced navigation target, if any. -/
def responseInterceptor (s : AuthState) (status : Nat) :
    AuthState × Option String :=
  if status = 401 then (AuthState.logout s, some "/login") else (s, none)

/-- Minimal JSON values, enough to describe the request bodies this client
builds (`null`, strings, and objects with ordered fields). -/
inductive Json
  | null
  | str (s : String)
  | obj (fields : List (String × Json))

/-- Body encoding of an outgoing request: JSON (`Content-Type:
application/json`, the instance default) or form-urlencoded (set explicitly
by `postForm`). -/
inductive Encoding
  | json
  | form
deriving DecidableEq, Repr

/-- An outgoing HTTP request as this client describes it: method, path,
body encoding, and the body in the corresponding representation. -/
structure Request where
  method : String
  url : String
  encoding : Encoding
  jsonBody : Option Json
  formBody : Option (List (String × String))

namespace ApiClient

/-- `post<T>(url, data)`: JSON-encoded POST (`client.ts` lines 57-60). -/
def post (url : String) (body : Json) : Request :=
  { method := "POST", url := url, encoding := Encoding.json,
    jsonBody := some body, formBody := none }

/-- `postForm<T>(url, data)`: builds a `URLSearchParams` by appending the
entries of `data` in order and POSTs it with `Content-Type:
application/x-www-form-urlencoded` (`client.ts` lines 63-75). -/
def postForm (url : String) (data : List (String × String)) : Request :=
  { method := "POST", url := url, encoding := Encoding.form,
    jsonBody := none, formBody := some data }

/-- `get<T>(url)` (`client.ts` lines 51-54). -/
def getRequest (url : String) : Request :=
  { method := "GET", url := url, encoding := Encoding.json,
    jsonBody := none, formBody := none }

end ApiClient

namespace chatApi

/-- `sendMessage(message)` posts `{ message }` to `/chat/message`
(`api/chat.ts`). -/
def sendMessage (message : String) : Request :=
  ApiClient.post "/chat/message" (Json.obj [("message", Json.str message)])

/-- `getHistory()` issues `GET /chat/history` (`api/chat.ts`). -/
def getHistory : Request :=
  ApiClient.getRequest "/chat/history"

/-- `newChat()` posts `{}` to `/chat/new` (`api/chat.ts`). -/
def newChat : Request :=
  ApiClient.post "/chat/new" (Json.obj [])

/-- `closeChat(chatId?)` posts `{ chat_id: chatId ?? null }` to
`/chat/close` (`api/chat.ts`). -/
def closeChat (chatId : Option String) : Request :=
  ApiClient.post "/chat/close" (Json.obj [("chat_id",
    match chatId with
    | none => Json.null
    | some c => Json.str c)])

end chatApi

namespace authApi

/-- `signup(credentials)` posts the credentials object as JSON to
`/auth/signup` (`api/auth.ts`); serialized field order follows the object
literal `{username, password}`. -/
def signup (c : AuthCredentials) : Request :=
  ApiClient.post "/auth/signup" (Json.obj
    [("username", Json.str c.username), ("password", Json.str c.password)])

/-- `login(credentials)` posts the credentials form-urlencoded to
`/auth/login` (`api/auth.ts`); `Object.entries` enumerates the literal in
insertion order `username`, `password`. -/
def login (c : AuthCredentials) : Request :=
  ApiClient.postForm "/auth/login"
    [("username", c.username), ("password", c.password)]

/-- Both wrappers `return response.data` unchanged: the decoded
`{access_token, token_type}` payload is passed through to the caller. -/
def tokenResult (r : TokenResponse) : TokenResponse :=
  r

end authApi

/-! ## Conversation view (`project/src/components/ChatWindow.tsx`) -/

/-- The `ChatWindow` local state: `currentMessages`, the input field
`message`, the busy flag `isSending`, and the error banner text. -/
structure ChatWindowState where
  currentMessages : List ChatMessage
  message : String
  isSending : Bool
  error : String
deriving DecidableEq, Repr

namespace ChatWindow

/-- The state while a send is in flight (`handleSend` before the await,
`ChatWindow.tsx` lines 443-449): clear error, set `isSending`, append the
user's trimmed message optimistically, clear the input. -/
def sendInFlight (s : ChatWindowState) : ChatWindowState :=
  { currentMessages :=
      s.currentMessages ++ [{ role := Role.user, text := (jsTrim s.message) }],
    message := "", isSending := true, error := "" }

/-- Outcome of the awaited `chatApi.sendMessage` call: the reply on
success, or the extracted error message on rejection. -/
inductive SendOutcome
  | success (reply : String)
  | failure (errMsg : String)
deriving DecidableEq, Repr

/-- The continuation of `handleSend` after the await (`ChatWindow.tsx`
lines 451-472): on success append the bot reply; on failure set the error,
drop the optimistically appended message (`prev.slice(0, -1)`), and restore
the input to the submitted (trimmed) text. Either way the `finally` block
clears `isSending`. -/
def finishSend (s : ChatWindowState) (submitted : String) :
    SendOutcome → ChatWindowState
  | SendOutcome.success reply =>
      { s with
        currentMessages :=
          s.currentMessages ++ [{ role := Role.bot, text := reply }],
        isSending := false }
  | SendOutcome.failure errMsg =>
      { s with
        error := errMsg,
        currentMessages := s.currentMessages.dropLast,
        message := submitted,
        isSending := false }

/-- The whole `handleSend` run (`ChatWindow.tsx` lines 439-473) as a
function of the call's outcome: the guard
`if (!trimmedMessage || isSending) return;` makes it a no-op on
whitespace-only input or while already sending. -/
def handleSend (s : ChatWindowState) (o : SendOutcome) : ChatWindowState :=
  if (jsTrim s.message) = "" ∨ s.isSending = true then s
  else finishSend (sendInFlight s) (jsTrim s.message) o

/-- The request `handleSend` issues, if any: `chatApi.sendMessage` of the
trimmed input, or none when the guard returns early. -/
def handleSendRequest (s : ChatWindowState) : Option Request :=
  if (jsTrim s.message) = "" ∨ s.isSending = true then none
  else some (chatApi.sendMessage (jsTrim s.message))

end ChatWindow

/-- The conversation view together with its outstanding `sendMessage`
calls (each pending entry is the submitted text of one in-flight send). -/
structure ChatMachine where
  win : ChatWindowState
  pending : List String
deriving DecidableEq, Repr

/-- UI events on the conversation view: editing the textarea (disabled
while sending), a submit (button click or Enter, both call `handleSend`),
and the resolution of the oldest in-flight send. -/
inductive ChatEvent
  | typeInput (text : String)
  | submit
  | resolve (o : ChatWindow.SendOutcome)
deriving DecidableEq, Repr

/-- One event step of the conversation view. Submit runs the guarded front
half of `handleSend` and records the in-flight call; resolve runs the
continuation for the oldest pending call; typing is ignored while the
textarea is disabled (`disabled={isSending}`). -/
def chatStep (m : ChatMachine) : ChatEvent → ChatMachine
  | ChatEvent.typeInput text =>
      if m.win.isSending = true then m
      else { m with win := { m.win with message := text } }
  | ChatEvent.submit =>
      if (jsTrim m.win.message) = "" ∨ m.win.isSending = true then m
      else { win := ChatWindow.sendInFlight m.win,
             pending := m.pending ++ [(jsTrim m.win.message)] }
  | ChatEvent.resolve o =>
      match m.pending with
      | [] => m
      | t :: rest => { win := ChatWindow.finishSend m.win t o, pending := rest }

/-- Run a sequence of events. -/
def chatRun (m : ChatMachine) : List ChatEvent → ChatMachine
  | [] => m
  | e :: es => chatRun (chatStep m e) es

/-- At most one send is in flight, and the busy flag tracks exactly whether
one is. -/
def atMostOneInFlight (m : ChatMachine) : Prop :=
  m.pending.length ≤ 1 ∧ (m.win.isSending = true ↔ m.pending ≠ [])

/-- A freshly mounted conversation view: no messages, empty input, idle. -/
def freshWindow : ChatWindowState :=
  { currentMessages := [], message := "", isSending := false, error := "" }

/-- A freshly mounted conversation view with no send in flight. -/
def freshMachine : ChatMachine :=
  { win := freshWindow, pending := [] }

/-- A concrete event sequence with a double submit and one resolution. -/
def sampleEvents : List ChatEvent :=
  [ChatEvent.typeInput "hi", ChatEvent.submit, ChatEvent.submit,
   ChatEvent.resolve (ChatWindow.SendOutcome.success "ok")]

/-! ## Chat page (`Chat.tsx`) -/

/-- The ordering of the history sort comparator
`(a, b) => new Date(b.timestamp).getTime() - new Date(a.timestamp).getTime()`:
`a` stays before `b` exactly when `b`'s timestamp is at most `a`'s
(descending, most recent first). -/
def histDesc (a b : ChatHistoryItem) : Prop :=
  b.timestamp ≤ a.timestamp

instance : DecidableRel histDesc := fun a b =>
  inferInstanceAs (Decidable (b.timestamp ≤ a.timestamp))

instance : IsTotal ChatHistoryItem histDesc :=
  ⟨fun a b => le_total b.timestamp a.timestamp⟩

instance : IsTrans ChatHistoryItem histDesc :=
  ⟨fun _ _ _ hab hbc => le_trans hbc hab⟩

/-- `res.items.slice().sort((a, b) => tb - ta)`: a stable sort of the
fetched items by timestamp descending (`Chat.tsx` lines 46-48, 91-93,
115-117), modelled by a stable insertion sort under `histDesc`. -/
def sortHistory (l : List ChatHistoryItem) : List ChatHistoryItem :=
  List.insertionSort histDesc l

/-- The `Chat` page state: history list, selected session id, loading
flags, and the error banner text (`Chat.tsx` lines 15-20). -/
structure ChatPageState where
  history : List ChatHistoryItem
  selectedChatId : Option String
  isLoadingHistory : Bool
  isActionLoading : Bool
  error : String
deriving DecidableEq, Repr

namespace ChatPage

/-- The success path of `loadHistory` (`Chat.tsx` lines 41-64) applied to
the fetched items: store the sorted list, and if it is nonempty while no
session is selected (JS truthiness of `selectedChatId`), select its first
element; the `finally` block clears the loading flag. -/
def loadHistorySuccess (s : ChatPageState) (items : List ChatHistoryItem) :
    ChatPageState :=
  { s with
    history := sortHistory items,
    error := "",
    selectedChatId :=
      match sortHistory items with
      | [] => s.selectedChatId
      | h :: _ =>
          if strTruthy s.selectedChatId then s.selectedChatId
          else some h.chat_id,
    isLoadingHistory := false }

/-- The success path of `handleNewChat` (`Chat.tsx` lines 82-105) given
the `chat_id` returned by `newChat` and the items of the subsequent
`getHistory`: store the sorted list and select the created id explicitly. -/
def handleNewChatSuccess (s : ChatPageState) (chatId : String)
    (items : List ChatHistoryItem) : ChatPageState :=
  { s with
    history := sortHistory items,
    selectedChatId := some chatId,
    error := "",
    isActionLoading := false }

/-- The backend calls `handleNewChat` awaits, in program order
(`Chat.tsx` lines 87-90): `closeChat(selectedChatId ?? undefined)`, then
`newChat()`, then `getHistory()`. -/
def handleNewChatRequests (s : ChatPageState) : List Request :=
  [chatApi.closeChat s.selectedChatId, chatApi.newChat, chatApi.getHistory]

/-- The success path of `handleCloseChat` (`Chat.tsx` lines 108-129):
a no-op when no session is selected (`if (!selectedChatId) return;`);
otherwise store the sorted refreshed list and select
`sorted[0]?.chat_id ?? null`. -/
def handleCloseChatSuccess (s : ChatPageState)
    (items : List ChatHistoryItem) : ChatPageState :=
  if strTruthy s.selectedChatId = false then s
  else
    { s with
      history := sortHistory items,
      selectedChatId := Option.map ChatHistoryItem.chat_id
        (sortHistory items).head?,
      error := "",
      isActionLoading := false }

end ChatPage

/-- A chat page with no selected session. -/
def pageNoSelection : ChatPageState :=
  { history := [], selectedChatId := none, isLoadingHistory := false,
    isActionLoading := false, error := "" }

/-- A chat page with session `"abc123"` selected. -/
def pageWithSelection : ChatPageState :=
  { pageNoSelection with selectedChatId := some "abc123" }

/-- Two concrete history items, most recent first once sorted. -/
def sampleItems : List ChatHistoryItem :=
  [{ chat_id := "zzz", messages := [], timestamp := 999 },
   { chat_id := "aaa", messages := [], timestamp := 1 }]

end MedBot

open MedBot

/-- C2: any backend response with status 401 leaves the session store with
`authenticated = false`, no token, no username, and forces navigation to
`/login`, whatever store state the triggering operation saw. -/
theorem interceptor_401_clears_session (s : AuthState) :
    (responseInterceptor s 401).1.isAuthenticated = false ∧
    (responseInterceptor s 401).1.token = none ∧
    (responseInterceptor s 401).1.username = none ∧
    (responseInterceptor s 401).2 = some "/login" := by
  simp [responseInterceptor, AuthState.logout]

/-- C3 fails as stated: immediately after rehydration of the record persisted
by `login "tok1" "alice"`, the store is a reachable state whose token is
present while `isAuthenticated` is still `false` (the flag is not persisted
and `loadFromStorage` has not yet run), so "authenticated iff token present"
does not hold in every reachable state. -/
theorem auth_invariant_rehydration_counterexample :
    AuthReachable (rehydrate (persistRecord
      (AuthState.login "tok1" "alice" AuthState.initial))) ∧
    (rehydrate (persistRecord
      (AuthState.login "tok1" "alice" AuthState.initial))).token = some "tok1" ∧
    (rehydrate (persistRecord
      (AuthState.login "tok1" "alice" AuthState.initial))).isAuthenticated
      = false ∧
    ¬((rehydrate (persistRecord
      (AuthState.login "tok1" "alice" AuthState.initial))).isAuthenticated
        = true ↔
      (rehydrate (persistRecord
      (AuthState.login "tok1" "alice" AuthState.initial))).token ≠ none) := by
  refine ⟨(AuthReachable.init.login "tok1" "alice").reload, rfl, rfl, ?_⟩
  decide

/-- C3 amended: in every reachable state `authenticated = true` implies a
token is present; the full "authenticated iff token present" equivalence
holds in the initial state, after `login`, after `logout`, and is preserved
by `loadFromStorage`; after a reload that rehydrates a nonempty persisted
token, running `loadFromStorage` restores the equivalence — but immediately
after rehydration itself the token is present while `authenticated` is
`false` (see the counterexample). -/
theorem auth_invariant_amended :
    (∀ s : AuthState, AuthReachable s →
      s.isAuthenticated = true → s.token ≠ none) ∧
    (AuthState.initial.isAuthenticated = true ↔ AuthState.initial.token ≠ none) ∧
    (∀ (t u : String) (s : AuthState),
      (AuthState.login t u s).isAuthenticated = true ↔
        (AuthState.login t u s).token ≠ none) ∧
    (∀ s : AuthState,
      (AuthState.logout s).isAuthenticated = true ↔
        (AuthState.logout s).token ≠ none) ∧
    (∀ s : AuthState,
      (s.isAuthenticated = true ↔ s.token ≠ none) →
      ((AuthState.loadFromStorage s).isAuthenticated = true ↔
        (AuthState.loadFromStorage s).token ≠ none)) ∧
    (∀ (t u : String) (s : AuthState), t ≠ "" →
      (AuthState.loadFromStorage (rehydrate (persistRecord
        (AuthState.login t u s)))).isAuthenticated = true ∧
      (AuthState.loadFromStorage (rehydrate (persistRecord
        (AuthState.login t u s)))).token = some t) := by
  refine ⟨?_, by simp [AuthState.initial], ?_, ?_, ?_, ?_⟩
  · intro s hs
    induction hs with
    | init => simp [AuthState.initial]
    | login t u _ _ => simp [AuthState.login]
    | logout _ _ => simp [AuthState.logout]
    | @load s' _ ih =>
      intro h
      rcases hcase : s'.token with _ | t
      · have hid : AuthState.loadFromStorage s' = s' := by
          simp [AuthState.loadFromStorage, strTruthy, hcase]
        rw [hid] at h ⊢
        exact absurd hcase (ih h)
      · have htok : (AuthState.loadFromStorage s').token = s'.token := by
          simp only [AuthState.loadFromStorage]
          split <;> rfl
        rw [htok, hcase]
        simp
    | reload _ _ =>
      intro h
      simp [rehydrate, persistRecord] at h
  · intro t u s; simp [AuthState.login]
  · intro s; simp [AuthState.logout]
  · intro s hiff
    by_cases ht : strTruthy s.token = true
    · have : s.token ≠ none := by
        rcases hcase : s.token with _ | t
        · rw [hcase] at ht; simp [strTruthy] at ht
        · simp
      simp [AuthState.loadFromStorage, ht, this]
    · rw [AuthState.loadFromStorage, if_neg (by simpa using ht)]
      exact hiff
  · intro t u s ht
    have : strTruthy (some t) = true := by simp [strTruthy, ht]
    simp [AuthState.loadFromStorage, rehydrate, persistRecord,
      AuthState.login, this]

/-- Witness for the amended C3 statement at concrete inputs: the reachable
state after `login "tok1" "alice"` has a token, and rehydration of its
persisted record followed by `loadFromStorage` is authenticated with token
`"tok1"`. -/
theorem auth_invariant_amended_witness :
    ((AuthState.login "tok1" "alice" AuthState.initial).isAuthenticated = true
      → (AuthState.login "tok1" "alice" AuthState.initial).token ≠ none) ∧
    ((AuthState.loadFromStorage (rehydrate (persistRecord
        (AuthState.login "tok1" "alice" AuthState.initial)))).isAuthenticated
        = true ∧
      (AuthState.loadFromStorage (rehydrate (persistRecord
        (AuthState.login "tok1" "alice" AuthState.initial)))).token
        = some "tok1") :=
  ⟨auth_invariant_amended.1 _ (AuthReachable.init.login "tok1" "alice"),
   auth_invariant_amended.2.2.2.2.2 "tok1" "alice" AuthState.initial
     (by decide)⟩

/-- C5: for a valid (nonempty) token, `login t u` followed by a simulated
reload that rehydrates only the persisted `{token, username}` record,
followed by `loadFromStorage`, yields exactly the store state that `login`
produced (same token, username, and authenticated flag). -/
theorem login_restore_roundtrip (t u : String) (s s' : AuthState)
    (ht : t ≠ "") :
    AuthState.loadFromStorage (rehydrate (persistRecord
      (AuthState.login t u s))) = AuthState.login t u s' := by
  have : strTruthy (some t) = true := by simp [strTruthy, ht]
  simp [AuthState.loadFromStorage, rehydrate, persistRecord,
    AuthState.login, this]

/-- Witness for C5 at `token = "tok1"`, `username = "alice"`. -/
theorem login_restore_roundtrip_witness :
    AuthState.loadFromStorage (rehydrate (persistRecord
      (AuthState.login "tok1" "alice" AuthState.initial))) =
      AuthState.login "tok1" "alice" AuthState.initial :=
  login_restore_roundtrip "tok1" "alice" AuthState.initial AuthState.initial
    (by decide)

/-- The `finally` block of `handleSend` clears `isSending` on both
outcomes. -/
theorem finishSend_isSending (w : ChatWindowState) (t : String)
    (o : ChatWindow.SendOutcome) :
    (ChatWindow.finishSend w t o).isSending = false := by
  cases o <;> rfl

/-- C1: whenever a send actually starts (nonempty trimmed input, not
already sending), the user's trimmed message is appended to the list while
the call is in flight; on failure the list returns exactly to its pre-send
value and the input holds the submitted text; on success the list is the
pre-send list plus the user message and then the bot reply. -/
theorem send_failure_rollback_exact (s : ChatWindowState) (e r : String)
    (hne : (jsTrim s.message) ≠ "") (hidle : s.isSending = false) :
    (ChatWindow.handleSend s (ChatWindow.SendOutcome.failure e)).currentMessages
      = s.currentMessages ∧
    (ChatWindow.handleSend s (ChatWindow.SendOutcome.failure e)).message
      = (jsTrim s.message) ∧
    (ChatWindow.sendInFlight s).currentMessages
      = s.currentMessages ++ [{ role := Role.user, text := (jsTrim s.message) }] ∧
    (ChatWindow.handleSend s (ChatWindow.SendOutcome.success r)).currentMessages
      = s.currentMessages ++ [{ role := Role.user, text := (jsTrim s.message) },
          { role := Role.bot, text := r }] := by
  simp [ChatWindow.handleSend, ChatWindow.finishSend, ChatWindow.sendInFlight,
    hne, hidle]

/-- Witness for C1 at input `" hi "` with a failing and a succeeding
outcome. -/
theorem send_failure_rollback_exact_witness :
    (ChatWindow.handleSend
        { currentMessages := [{ role := Role.bot, text := "hello" }],
          message := " hi ", isSending := false, error := "" }
        (ChatWindow.SendOutcome.failure "err")).currentMessages
      = [{ role := Role.bot, text := "hello" }] ∧
    (ChatWindow.handleSend
        { currentMessages := [{ role := Role.bot, text := "hello" }],
          message := " hi ", isSending := false, error := "" }
        (ChatWindow.SendOutcome.failure "err")).message = jsTrim " hi " ∧
    (ChatWindow.sendInFlight
        { currentMessages := [{ role := Role.bot, text := "hello" }],
          message := " hi ", isSending := false, error := "" }).currentMessages
      = [{ role := Role.bot, text := "hello" }] ++
          [{ role := Role.user, text := jsTrim " hi " }] ∧
    (ChatWindow.handleSend
        { currentMessages := [{ role := Role.bot, text := "hello" }],
          message := " hi ", isSending := false, error := "" }
        (ChatWindow.SendOutcome.success "ok")).currentMessages
      = [{ role := Role.bot, text := "hello" }] ++
          [{ role := Role.user, text := jsTrim " hi " },
           { role := Role.bot, text := "ok" }] :=
  send_failure_rollback_exact
    { currentMessages := [{ role := Role.bot, text := "hello" }],
      message := " hi ", isSending := false, error := "" }
    "err" "ok" (by decide) rfl

/-- One step preserves the single-in-flight invariant. -/
theorem chatStep_atMostOne (m : ChatMachine) (e : ChatEvent)
    (hm : atMostOneInFlight m) : atMostOneInFlight (chatStep m e) := by
  obtain ⟨hlen, hiff⟩ := hm
  cases e with
  | typeInput text =>
    by_cases hs : m.win.isSending = true
    · simpa [chatStep, hs] using ⟨hlen, hiff⟩
    · simp only [chatStep, if_neg hs]
      exact ⟨hlen, by simpa using hiff⟩
  | submit =>
    by_cases hguard : (jsTrim m.win.message) = "" ∨ m.win.isSending = true
    · simpa [chatStep, hguard] using ⟨hlen, hiff⟩
    · push_neg at hguard
      have hpend : m.pending = [] := by
        by_contra hne
        exact hguard.2 (hiff.mpr hne)
      simp [chatStep, hguard.1, hguard.2, atMostOneInFlight, hpend,
        ChatWindow.sendInFlight]
  | resolve o =>
    rcases hcase : m.pending with _ | ⟨t, rest⟩
    · simpa [chatStep, hcase] using ⟨hlen, hiff⟩
    · have hrest : rest = [] := by
        rw [hcase] at hlen
        simpa using hlen
      subst hrest
      simp [chatStep, hcase, atMostOneInFlight, finishSend_isSending]

/-- Runs preserve the single-in-flight invariant. -/
theorem chatRun_atMostOne (m : ChatMachine) (es : List ChatEvent)
    (hm : atMostOneInFlight m) : atMostOneInFlight (chatRun m es) := by
  induction es generalizing m with
  | nil => exact hm
  | cons e es ih => exact ih _ (chatStep_atMostOne m e hm)

/-- C4: along every event sequence from a state with at most one send in
flight, at most one send is ever in flight; a submit while sending is a
no-op, and a submit with whitespace-only input is a no-op and starts no
send. -/
theorem at_most_one_send_in_flight (m : ChatMachine) (es : List ChatEvent)
    (hm : atMostOneInFlight m) :
    atMostOneInFlight (chatRun m es) ∧
    (m.win.isSending = true → chatStep m ChatEvent.submit = m) ∧
    ((jsTrim m.win.message) = "" → chatStep m ChatEvent.submit = m) := by
  refine ⟨chatRun_atMostOne m es hm, ?_, ?_⟩
  · intro hs
    simp [chatStep, hs]
  · intro hempty
    simp [chatStep, hempty]

/-- Witness for C4 on a concrete event sequence containing a double
submit. -/
theorem at_most_one_send_in_flight_witness :
    atMostOneInFlight (chatRun freshMachine sampleEvents) ∧
    (freshMachine.win.isSending = true →
      chatStep freshMachine ChatEvent.submit = freshMachine) ∧
    (jsTrim freshMachine.win.message = "" →
      chatStep freshMachine ChatEvent.submit = freshMachine) :=
  at_most_one_send_in_flight freshMachine sampleEvents
    (by simp [atMostOneInFlight, freshMachine, freshWindow])

/-- C10: a send uses the trimmed input everywhere: the optimistically
appended message text, the body of the `sendMessage` request, and the input
restored after a failed send all equal `trim(input)`. -/
theorem send_uses_trimmed_text (s : ChatWindowState) (e : String)
    (hne : (jsTrim s.message) ≠ "") (hidle : s.isSending = false) :
    (ChatWindow.sendInFlight s).currentMessages.getLast?
      = some { role := Role.user, text := (jsTrim s.message) } ∧
    ChatWindow.handleSendRequest s
      = some (ApiClient.post "/chat/message"
          (Json.obj [("message", Json.str (jsTrim s.message))])) ∧
    (ChatWindow.handleSend s (ChatWindow.SendOutcome.failure e)).message
      = (jsTrim s.message) := by
  refine ⟨?_, ?_, ?_⟩
  · simp [ChatWindow.sendInFlight]
  · simp [ChatWindow.handleSendRequest, chatApi.sendMessage, hne, hidle]
  · simp [ChatWindow.handleSend, ChatWindow.finishSend, hne, hidle]

/-- Witness for C10 at input `"  bonjour  "`. -/
theorem send_uses_trimmed_text_witness :
    (ChatWindow.sendInFlight
        { currentMessages := [], message := "  bonjour  ",
          isSending := false, error := "" }).currentMessages.getLast?
      = some { role := Role.user, text := jsTrim "  bonjour  " } ∧
    ChatWindow.handleSendRequest
        { currentMessages := [], message := "  bonjour  ",
          isSending := false, error := "" }
      = some (ApiClient.post "/chat/message"
          (Json.obj [("message", Json.str (jsTrim "  bonjour  "))])) ∧
    (ChatWindow.handleSend
        { currentMessages := [], message := "  bonjour  ",
          isSending := false, error := "" }
        (ChatWindow.SendOutcome.failure "err")).message
      = jsTrim "  bonjour  " :=
  send_uses_trimmed_text
    { currentMessages := [], message := "  bonjour  ",
      isSending := false, error := "" }
    "err" (by decide) rfl

/-- C6: after every history fetch — on load, after a new chat, and after a
close chat — the displayed list is exactly `sortHistory` of the server's
items, which is a permutation of them in which each item's timestamp is ≥
the next item's timestamp. -/
theorem history_sorted_desc (s : ChatPageState) (cid : String)
    (items : List ChatHistoryItem) :
    List.Chain' histDesc (sortHistory items) ∧
    List.Perm (sortHistory items) items ∧
    (ChatPage.loadHistorySuccess s items).history = sortHistory items ∧
    (ChatPage.handleNewChatSuccess s cid items).history = sortHistory items ∧
    (strTruthy s.selectedChatId = true →
      (ChatPage.handleCloseChatSuccess s items).history
        = sortHistory items) := by
  refine ⟨List.Pairwise.chain' (List.sorted_insertionSort histDesc items),
    List.perm_insertionSort histDesc items, rfl, rfl, ?_⟩
  intro hsel
  simp [ChatPage.handleCloseChatSuccess, hsel]

/-- Witness for C6 on two concrete out-of-order items, covering both the
page with no selection (the initial on-load fetch) and the selected page
whose close-chat refresh the last conjunct requires. -/
theorem history_sorted_desc_witness :
    List.Chain' histDesc (sortHistory sampleItems) ∧
    List.Perm (sortHistory sampleItems) sampleItems ∧
    (ChatPage.loadHistorySuccess pageNoSelection sampleItems).history
      = sortHistory sampleItems ∧
    (ChatPage.handleNewChatSuccess pageNoSelection "abc123"
      sampleItems).history = sortHistory sampleItems ∧
    (ChatPage.handleCloseChatSuccess pageWithSelection sampleItems).history
      = sortHistory sampleItems :=
  ⟨(history_sorted_desc pageNoSelection "abc123" sampleItems).1,
   (history_sorted_desc pageNoSelection "abc123" sampleItems).2.1,
   (history_sorted_desc pageNoSelection "abc123" sampleItems).2.2.1,
   (history_sorted_desc pageNoSelection "abc123" sampleItems).2.2.2.1,
   (history_sorted_desc pageWithSelection "abc123"
     sampleItems).2.2.2.2 rfl⟩

/-- C7: after a successful new chat the selected session is exactly the
`chat_id` returned by `newChat`, whatever the sort order of the refreshed
items; after a successful close chat (which requires a selected session)
the selection becomes the head of the sorted refreshed list — the item
whose timestamp is maximal among all fetched items — or none when the list
is empty. -/
theorem session_selection_after_new_and_close (s : ChatPageState)
    (cid : String) (items : List ChatHistoryItem) :
    (ChatPage.handleNewChatSuccess s cid items).selectedChatId = some cid ∧
    (strTruthy s.selectedChatId = true →
      (items = [] →
        (ChatPage.handleCloseChatSuccess s items).selectedChatId = none) ∧
      (∀ hd rest, sortHistory items = hd :: rest →
        (ChatPage.handleCloseChatSuccess s items).selectedChatId
          = some hd.chat_id ∧
        ∀ x ∈ items, x.timestamp ≤ hd.timestamp)) := by
  refine ⟨rfl, fun hsel => ⟨?_, ?_⟩⟩
  · intro hnil
    subst hnil
    simp [ChatPage.handleCloseChatSuccess, hsel, sortHistory]
  · intro hd rest hsorted
    constructor
    · simp [ChatPage.handleCloseChatSuccess, hsel, hsorted]
    · intro x hx
      have hsortd : List.Sorted histDesc (sortHistory items) :=
        List.sorted_insertionSort histDesc items
      rw [hsorted] at hsortd
      have hmem : x ∈ sortHistory items :=
        (List.perm_insertionSort histDesc items).mem_iff.mpr hx
      rw [hsorted] at hmem
      rcases List.mem_cons.mp hmem with hxe | hxr
      · subst hxe
        exact le_refl _
      · exact List.rel_of_sorted_cons hsortd x hxr

/-- Witness for C7: a successful new chat from the unselected page (first
chat) selects the returned `"abc123"` even though the sort places `"zzz"`
(timestamp 999) first; closing from the selected page selects `"zzz"`. -/
theorem session_selection_after_new_and_close_witness :
    (ChatPage.handleNewChatSuccess pageNoSelection "abc123"
      sampleItems).selectedChatId = some "abc123" ∧
    (ChatPage.handleCloseChatSuccess pageWithSelection
      sampleItems).selectedChatId = some "zzz" := by
  have h := session_selection_after_new_and_close pageWithSelection "abc123"
    sampleItems
  refine ⟨(session_selection_after_new_and_close pageNoSelection "abc123"
    sampleItems).1, ?_⟩
  exact ((h.2 rfl).2 { chat_id := "zzz", messages := [], timestamp := 999 }
    [{ chat_id := "aaa", messages := [], timestamp := 1 }] (by decide)).1

/-- C8: for every credentials value, `signup` posts the structured (JSON)
credentials object to `/auth/signup` while `login` posts it
form-urlencoded to `/auth/login`, and both wrappers return the decoded
`{access_token, token_type}` payload unchanged. -/
theorem signup_json_login_form (c : AuthCredentials) (r : TokenResponse) :
    (authApi.signup c).url = "/auth/signup" ∧
    (authApi.signup c).encoding = Encoding.json ∧
    (authApi.signup c).jsonBody = some (Json.obj
      [("username", Json.str c.username),
       ("password", Json.str c.password)]) ∧
    (authApi.login c).url = "/auth/login" ∧
    (authApi.login c).encoding = Encoding.form ∧
    (authApi.login c).formBody
      = some [("username", c.username), ("password", c.password)] ∧
    authApi.tokenResult r = r :=
  ⟨rfl, rfl, rfl, rfl, rfl, rfl, rfl⟩

/-- C9: `handleNewChat` issues `closeChat` for the currently selected
session — with a `null` `chat_id` in the body when none is selected —
before `newChat` and the history refresh. -/
theorem newChat_closes_current_first (s : ChatPageState) :
    ChatPage.handleNewChatRequests s
      = [chatApi.closeChat s.selectedChatId, chatApi.newChat,
         chatApi.getHistory] ∧
    (chatApi.closeChat s.selectedChatId).url = "/chat/close" ∧
    (s.selectedChatId = none →
      (chatApi.closeChat s.selectedChatId).jsonBody
        = some (Json.obj [("chat_id", Json.null)])) ∧
    (∀ c, s.selectedChatId = some c →
      (chatApi.closeChat s.selectedChatId).jsonBody
        = some (Json.obj [("chat_id", Json.str c)])) := by
  refine ⟨rfl, rfl, ?_, ?_⟩
  · intro h
    rw [h]
    rfl
  · intro c h
    rw [h]
    rfl

/-- Witness for C9 with and without a selected session. -/
theorem newChat_closes_current_first_witness :
    ChatPage.handleNewChatRequests pageWithSelection
      = [chatApi.closeChat pageWithSelection.selectedChatId, chatApi.newChat,
         chatApi.getHistory] ∧
    (chatApi.closeChat pageNoSelection.selectedChatId).jsonBody
      = some (Json.obj [("chat_id", Json.null)]) ∧
    (chatApi.closeChat pageWithSelection.selectedChatId).jsonBody
      = some (Json.obj [("chat_id", Json.str "abc123")]) :=
  ⟨(newChat_closes_current_first pageWithSelection).1,
   (newChat_closes_current_first pageNoSelection).2.2.1 rfl,
   (newChat_closes_current_first pageWithSelection).2.2.2 "abc123" rfl⟩
